import Mathlib

set_option maxRecDepth 8192

/-
Verification development for the Chef-IA serverless endpoint
(src/netlify/functions/generate.mts). The file contains two request
handlers: the modern Netlify handler (the `default` export) and a
Vercel/Netlify CommonJS handler (`module.exports`). Both validate an
inbound request, build a prompt, call the Gemini generateContent API
once, clean the reply and relay it.

The embedding below models the JavaScript values flowing through the
handlers. JSON.parse / JSON.stringify are modelled by an executable
parser and serializer over an inductive `Json` type; JS truthiness,
property access, optional chaining and template-literal stringification
are modelled explicitly. Numbers are modelled as exact decimals
(mantissa / 10^scale); IEEE-754 rounding and exponential rendering of
extreme magnitudes are not modelled (no claim depends on them). The
wording of engine-generated exception messages (TypeError / SyntaxError
texts) is engine-specific and is modelled by fixed descriptive strings;
no claim depends on those texts either.
-/

/-- JSON values as produced by JSON.parse. `num m scale` denotes the
decimal m / 10^scale (kept normalized by the parser: no trailing zero
fraction digits). Objects keep field insertion order; duplicate keys are
collapsed at parse time exactly as JS object construction does (first
position, last value). -/
inductive Json where
  | null
  | bool (b : Bool)
  | num (m : Int) (scale : Nat)
  | str (s : String)
  | arr (items : List Json)
  | obj (fields : List (String × Json))

/-- Whitespace accepted between JSON tokens by JSON.parse. -/
def isJsonWs (c : Char) : Bool :=
  c == ' ' || c == '\t' || c == '\n' || c == '\r'

/-- The backtick character, used by the markdown fence tokens. -/
def backtick : Char := Char.ofNat 96

/-- Opening curly brace character. -/
def lbrace : Char := Char.ofNat 123

/-- Closing curly brace character. -/
def rbrace : Char := Char.ofNat 125

/-- Numeric value of a hexadecimal digit. -/
def hexVal (c : Char) : Option Nat :=
  if '0' ≤ c ∧ c ≤ '9' then some (c.toNat - 48)
  else if 'a' ≤ c ∧ c ≤ 'f' then some (c.toNat - 87)
  else if 'A' ≤ c ∧ c ≤ 'F' then some (c.toNat - 55)
  else none

/-- Decoding of a single-character JSON string escape. -/
def escDecode (e : Char) : Option Char :=
  if e = '"' ∨ e = '\\' ∨ e = '/' then some e
  else if e = 'n' then some '\n'
  else if e = 't' then some '\t'
  else if e = 'r' then some '\r'
  else if e = 'b' then some (Char.ofNat 8)
  else if e = 'f' then some (Char.ofNat 12)
  else none

/-- Parse the body of a JSON string literal (the opening quote already
consumed); returns the decoded characters and the input after the
closing quote. Unescaped control characters are rejected, as by
JSON.parse. Surrogate pairing of \u escapes is not modelled. -/
def parseStringAux : List Char → Option (List Char × List Char)
  | [] => none
  | c :: cs =>
    if c = '"' then some ([], cs)
    else if c = '\\' then
      match cs with
      | [] => none
      | 'u' :: a :: b :: d :: e :: cs2 =>
        match hexVal a, hexVal b, hexVal d, hexVal e with
        | some ha, some hb, some hd, some he =>
          match parseStringAux cs2 with
          | some (s, r) => some (Char.ofNat (((ha * 16 + hb) * 16 + hd) * 16 + he) :: s, r)
          | none => none
        | _, _, _, _ => none
      | e :: cs2 =>
        match escDecode e with
        | some d =>
          match parseStringAux cs2 with
          | some (s, r) => some (d :: s, r)
          | none => none
        | none => none
    else if c.toNat < 32 then none
    else
      match parseStringAux cs with
      | some (s, r) => some (c :: s, r)
      | none => none

/-- Decimal value of a digit string. -/
def digitsVal (l : List Char) : Nat :=
  l.foldl (fun a c => a * 10 + (c.toNat - 48)) 0

/-- Strip trailing zeros from an exact decimal m / 10^s. -/
def normNum : Int → Nat → Int × Nat
  | m, 0 => (m, 0)
  | m, s+1 =>
    if m = 0 then (0, 0)
    else if m % 10 = 0 then normNum (m / 10) s
    else (m, s+1)

/-- Parse an optional fraction part (a dot followed by digits). -/
def parseFracPart : List Char → Option (List Char × List Char)
  | '.' :: r =>
    let p := r.span Char.isDigit
    if p.1.isEmpty then none else some (p.1, p.2)
  | l => some ([], l)

/-- Parse an optional exponent part. -/
def parseExpPart : List Char → Option (Int × List Char)
  | c :: r =>
    if c = 'e' ∨ c = 'E' then
      let p :=
        match r with
        | s :: r2 =>
          if s = '+' then ((1 : Int), r2)
          else if s = '-' then ((-1 : Int), r2)
          else ((1 : Int), r)
        | [] => ((1 : Int), r)
      let q := p.2.span Char.isDigit
      if q.1.isEmpty then none else some (p.1 * (digitsVal q.1 : Int), q.2)
    else some (0, c :: r)
  | [] => some (0, [])

/-- Parse a JSON number literal into an exact decimal. -/
def parseNumber (l : List Char) : Option (Json × List Char) :=
  let p :=
    match l with
    | c :: r => if c = '-' then (true, r) else (false, l)
    | [] => (false, l)
  match p.2 with
  | [] => none
  | c0 :: _ =>
    if c0.isDigit = false then none
    else
      let q := p.2.span Char.isDigit
      if q.1.length > 1 ∧ q.1.head? = some '0' then none
      else
        match parseFracPart q.2 with
        | none => none
        | some (fds, r2) =>
          match parseExpPart r2 with
          | none => none
          | some (e, r3) =>
            let mNat := digitsVal (q.1 ++ fds)
            let m : Int := if p.1 then -(mNat : Int) else (mNat : Int)
            let scaleInt : Int := (fds.length : Int) - e
            let n :=
              if scaleInt ≤ 0 then (m * (10 : Int) ^ (-scaleInt).toNat, 0)
              else normNum m scaleInt.toNat
            some (.num n.1 n.2, r3)

/-- Insert a field into an object under construction with JS object
semantics: an existing key keeps its position but the value is
overwritten, a new key is appended. -/
def insertField : List (String × Json) → String → Json → List (String × Json)
  | [], k, v => [(k, v)]
  | (k2, v2) :: fs, k, v =>
    if k2 = k then (k2, v) :: fs else (k2, v2) :: insertField fs k v

mutual

/-- Fuel-driven recursive-descent parser for a JSON value; returns the
value and the remaining input. -/
def parseValue : Nat → List Char → Option (Json × List Char)
  | 0, _ => none
  | f+1, l =>
    match l.dropWhile isJsonWs with
    | [] => none
    | c :: r =>
      if c = '"' then
        match parseStringAux r with
        | some (s, rest) => some (.str (String.mk s), rest)
        | none => none
      else if c = lbrace then
        match r.dropWhile isJsonWs with
        | c2 :: r2 => if c2 = rbrace then some (.obj [], r2) else parseFieldsAux f [] (c2 :: r2)
        | [] => none
      else if c = '[' then
        match r.dropWhile isJsonWs with
        | c2 :: r2 => if c2 = ']' then some (.arr [], r2) else parseItemsAux f [] (c2 :: r2)
        | [] => none
      else if c = 't' then
        match c :: r with
        | 't' :: 'r' :: 'u' :: 'e' :: rest => some (.bool true, rest)
        | _ => none
      else if c = 'f' then
        match c :: r with
        | 'f' :: 'a' :: 'l' :: 's' :: 'e' :: rest => some (.bool false, rest)
        | _ => none
      else if c = 'n' then
        match c :: r with
        | 'n' :: 'u' :: 'l' :: 'l' :: rest => some (.null, rest)
        | _ => none
      else parseNumber (c :: r)

/-- Parse the items of a non-empty JSON array (positioned at the first
item), accumulating in reverse. -/
def parseItemsAux : Nat → List Json → List Char → Option (Json × List Char)
  | 0, _, _ => none
  | f+1, acc, l =>
    match parseValue f l with
    | none => none
    | some (v, r) =>
      match r.dropWhile isJsonWs with
      | c :: r2 =>
        if c = ',' then parseItemsAux f (v :: acc) r2
        else if c = ']' then some (.arr (v :: acc).reverse, r2)
        else none
      | [] => none

/-- Parse the fields of a non-empty JSON object (positioned at the first
key). -/
def parseFieldsAux : Nat → List (String × Json) → List Char → Option (Json × List Char)
  | 0, _, _ => none
  | f+1, acc, l =>
    match l with
    | c :: r =>
      if c = '"' then
        match parseStringAux r with
        | some (k, r1) =>
          match r1.dropWhile isJsonWs with
          | c2 :: r2 =>
            if c2 = ':' then
              match parseValue f r2 with
              | none => none
              | some (v, r3) =>
                match r3.dropWhile isJsonWs with
                | c3 :: r4 =>
                  if c3 = ',' then
                    parseFieldsAux f (insertField acc (String.mk k) v) (r4.dropWhile isJsonWs)
                  else if c3 = rbrace then some (.obj (insertField acc (String.mk k) v), r4)
                  else none
                | [] => none
            else none
          | [] => none
        | none => none
      else none
    | [] => none

end

/-- Model of JSON.parse: parse a complete JSON text, requiring only
whitespace to remain. Returns none where JSON.parse throws. -/
def Json.parse (s : String) : Option Json :=
  match parseValue (2 * s.length + 4) s.toList with
  | some (v, rest) => if (rest.dropWhile isJsonWs).isEmpty then some v else none
  | none => none

/-- Hexadecimal digit character for a nibble. -/
def hexDigit (n : Nat) : Char :=
  if n < 10 then Char.ofNat (48 + n) else Char.ofNat (87 + n)

/-- JSON.stringify escaping of one character inside a string literal. -/
def escChar (c : Char) : List Char :=
  if c = '"' then ['\\', '"']
  else if c = '\\' then ['\\', '\\']
  else if c = '\n' then ['\\', 'n']
  else if c = '\r' then ['\\', 'r']
  else if c = '\t' then ['\\', 't']
  else if c = Char.ofNat 8 then ['\\', 'b']
  else if c = Char.ofNat 12 then ['\\', 'f']
  else if c.toNat < 32 then ['\\', 'u', '0', '0', hexDigit (c.toNat / 16), hexDigit (c.toNat % 16)]
  else [c]

/-- JSON string literal for a string value (quotes plus escaping). -/
def escapeString (s : String) : String :=
  "\x22" ++ String.mk (s.toList.map escChar).flatten ++ "\x22"

/-- Decimal rendering of the exact decimal m / 10^s, matching how JS
prints such numbers (no exponential form for the magnitudes that occur
here). -/
def renderNum (m : Int) (s : Nat) : String :=
  if s = 0 then toString m
  else
    let ds := (toString m.natAbs).toList
    let ds2 := if ds.length < s + 1 then List.replicate (s + 1 - ds.length) '0' ++ ds else ds
    (if m < 0 then "-" else "") ++
      String.mk (ds2.take (ds2.length - s)) ++ "." ++ String.mk (ds2.drop (ds2.length - s))

mutual

/-- Model of JSON.stringify on parsed values. -/
def Json.stringify : Json → String
  | .null => "null"
  | .bool true => "true"
  | .bool false => "false"
  | .num m s => renderNum m s
  | .str s => escapeString s
  | .arr xs => "[" ++ stringifyItems xs ++ "]"
  | .obj fs => "\x7b" ++ stringifyFields fs ++ "\x7d"

/-- Comma-joined serialization of array items. -/
def stringifyItems : List Json → String
  | [] => ""
  | [x] => Json.stringify x
  | x :: xs => Json.stringify x ++ "," ++ stringifyItems xs

/-- Comma-joined serialization of object fields. -/
def stringifyFields : List (String × Json) → String
  | [] => ""
  | [(k, v)] => escapeString k ++ ":" ++ Json.stringify v
  | (k, v) :: fs => escapeString k ++ ":" ++ Json.stringify v ++ "," ++ stringifyFields fs

end

mutual

/-- JS ToString of a value, as used by template-literal interpolation. -/
def jsToString : Json → String
  | .null => "null"
  | .bool true => "true"
  | .bool false => "false"
  | .num m s => renderNum m s
  | .str s => s
  | .arr xs => jsToStringItems xs
  | .obj _ => "[object Object]"

/-- Array.prototype.toString joins elements with commas; null elements
render as the empty string. -/
def jsToStringItems : List Json → String
  | [] => ""
  | [.null] => ""
  | [x] => jsToString x
  | .null :: xs => "," ++ jsToStringItems xs
  | x :: xs => jsToString x ++ "," ++ jsToStringItems xs

end

/-- JS truthiness of a parsed JSON value (undefined is handled at the
Option layer). -/
def truthy : Json → Bool
  | .null => false
  | .bool b => b
  | .num m _ => !(m == 0)
  | .str s => !(s == "")
  | .arr _ => true
  | .obj _ => true

/-- Truthiness of a possibly-undefined value. -/
def truthyOpt : Option Json → Bool
  | none => false
  | some j => truthy j

/-- Whether a value is JS null (property access on it throws). -/
def isNull : Json → Bool
  | .null => true
  | _ => false

/-- First-match field lookup (parsed objects have unique keys). -/
def lookupField : List (String × Json) → String → Option Json
  | [], _ => none
  | (k, v) :: fs, key => if k = key then some v else lookupField fs key

/-- JS property access `x.k` on a non-null value: a field of an object,
undefined (none) on every non-object. The null case (which throws) is
handled explicitly at each use site. -/
def jsProp : Json → String → Option Json
  | .obj fs, k => lookupField fs k
  | _, _ => none

/-- JS indexing `x[0]`: first element of an array, the "0" field of an
object, the first character of a string, undefined otherwise. -/
def jsIndex0 : Json → Option Json
  | .arr (x :: _) => some x
  | .arr [] => none
  | .obj fs => lookupField fs "0"
  | .str s =>
    match s.toList with
    | c :: _ => some (.str (String.mk [c]))
    | [] => none
  | _ => none

/-- Optional chaining `x?.…`: null and undefined short-circuit to
undefined, otherwise the accessor applies. -/
def optChain (o : Option Json) (f : Json → Option Json) : Option Json :=
  match o with
  | none => none
  | some j => if isNull j = true then none else f j

/-- JS `a || b` on a possibly-undefined value: the value if truthy,
otherwise the default. -/
def jsOr (o : Option Json) (d : Json) : Json :=
  match o with
  | some j => if truthy j = true then j else d
  | none => d

/-- Truthiness of an environment variable string as tested by
`if (!API_KEY)`: both an unset variable and the empty string are falsy. -/
def keyTruthy : Option String → Bool
  | none => false
  | some s => !(s == "")

/-- The optional chain
`responseJson.candidates?.[0]?.content?.parts?.[0]?.text`
(the receiver itself is known non-null at the use site). -/
def chainText (rj : Json) : Option Json :=
  optChain
    (optChain
      (optChain
        (optChain
          (optChain (jsProp rj "candidates") jsIndex0)
          (fun c => jsProp c "content"))
        (fun c => jsProp c "parts"))
      jsIndex0)
    (fun c => jsProp c "text")

/-- Whitespace removed by JS String.prototype.trim (the characters that
can occur in practice; further exotic Unicode space code points behave
the same way and are omitted). -/
def isJsWs (c : Char) : Bool :=
  c == ' ' || c == '\t' || c == '\n' || c == '\r' ||
  c == Char.ofNat 11 || c == Char.ofNat 12 || c == Char.ofNat 160 ||
  c == Char.ofNat 0xfeff || c == Char.ofNat 0x2028 || c == Char.ofNat 0x2029

/-- Drop trailing JS whitespace. -/
def dropTrailWs (l : List Char) : List Char :=
  (l.reverse.dropWhile isJsWs).reverse

/-- Model of String.prototype.trim on character lists. -/
def trimChars (l : List Char) : List Char :=
  dropTrailWs (l.dropWhile isJsWs)

/-- The token "```json" of the fence-stripping regex. -/
def fenceJsonTok : List Char := [backtick, backtick, backtick, 'j', 's', 'o', 'n']

/-- The token "```" of the fence-stripping regex. -/
def fenceTok : List Char := [backtick, backtick, backtick]

/-- Whether `pre` is a prefix of `l` (boolean, by direct recursion). -/
def startsWithChars : List Char → List Char → Bool
  | [], _ => true
  | _ :: _, [] => false
  | p :: ps, c :: cs => p == c && startsWithChars ps cs

/-- Scanner for `.replace(/```json|```/g, '')`: with `skip = 0` the scan
is at a fresh position and tries the token "```json" first, then "```",
removing the matched token by skipping its remaining characters;
otherwise the character is kept. A positive `skip` consumes characters
belonging to an already-matched token. -/
def stripAux : Nat → List Char → List Char
  | _, [] => []
  | k+1, _ :: cs => stripAux k cs
  | 0, c :: cs =>
    if startsWithChars fenceJsonTok (c :: cs) then stripAux 6 cs
    else if startsWithChars fenceTok (c :: cs) then stripAux 2 cs
    else c :: stripAux 0 cs

/-- Model of `.replace(/```json|```/g, '')`: a single left-to-right scan
removing every occurrence of the token "```json" or, failing that at the
same position, "```"; all other characters are kept. -/
def stripFences (l : List Char) : List Char := stripAux 0 l

/-- The cleaning step applied to the extracted candidate text:
`candidateText.replace(/```json|```/g, '').trim()`. -/
def cleanText (s : String) : String :=
  String.mk (trimChars (stripFences s.toList))

/-- An inbound HTTP request: its method and raw body text. -/
structure Request where
  method : String
  body : String
deriving DecidableEq

/-- The mocked reply of the single outbound fetch to the Gemini API:
`ok` and `status` of the Response object plus the raw body text that
`.json()` decodes. -/
structure UpstreamReply where
  ok : Bool
  status : Nat
  body : String
deriving DecidableEq

/-- An outbound HTTP response: status code and body text. The CORS
headers are the same request-independent constants on every path in
both handlers and are left out of the model. -/
structure HttpResponse where
  status : Nat
  body : String
deriving DecidableEq

/-- The observable outcome of one handler invocation: the response,
plus the outbound Gemini call if one was made, recorded as the pair
(model name, prompt text). -/
structure Outcome where
  resp : HttpResponse
  upstreamCall : Option (String × String)
deriving DecidableEq

/-- The model name of the Netlify (modern) handler. -/
def MODEL_NAME : String := "gemini-2.0-flash"

/-- The model name of the Vercel/CommonJS handler. -/
def MODEL_NAME_vercel : String := "gemini-2.5-flash-preview-09-2025"

/-- The prompt template shared verbatim by both handlers. -/
def mkPrompt (ingredients lang : String) : String :=
  "\n        Role: Expert Chef.\n        Task: Create 2 creative recipes using these ingredients: \x22" ++
  ingredients ++
  "\x22.\n        Language: Response MUST be in the language code provided: " ++
  lang ++
  ".\n        Constraint: Return ONLY a valid JSON array. No markdown, no introduction.\n        JSON Structure: [\x7b\x22title\x22: \x22Name\x22, \x22desc\x22: \x22Short description\x22, \x22time\x22: \x2230 min\x22, \x22ingredients\x22: [\x22Item 1\x22, \x22Item 2\x22], \x22steps\x22: [\x22Step 1\x22, \x22Step 2\x22]\x7d]\n    "

/-- Message of the explicit `throw new Error("No content generated")`. -/
def noContentMsg : String := "No content generated"

/-- Stands for the engine text of the TypeError raised by reading a
property of null or calling .replace on a non-string; the exact wording
is engine-specific and no claim depends on it. -/
def nullReadMsg : String := "TypeError while reading the response"

/-- Stands for the engine text of the SyntaxError raised by JSON.parse;
engine-specific, no claim depends on it. -/
def jsonParseErrMsg : String := "SyntaxError while parsing JSON"

/-- Netlify handler body for the configuration-error response. -/
def netlifyConfigBody : String :=
  Json.stringify (.obj [("error", .str "Configuration Error"),
    ("message", .str "Configuration Error: GEMINI_API_KEY is not set on the server.")])

/-- Netlify handler body for the method-not-allowed response. -/
def netlifyMethodBody : String :=
  Json.stringify (.obj [("error", .str "Method Not Allowed"),
    ("message", .str "Method Not Allowed. Use POST.")])

/-- Netlify handler body for the invalid-JSON-body response. -/
def netlifyInvalidBody : String :=
  Json.stringify (.obj [("error", .str "Invalid JSON body"),
    ("message", .str "Invalid request format.")])

/-- Netlify handler body for the missing-ingredients response. -/
def netlifyMissingBody : String :=
  Json.stringify (.obj [("error", .str "Missing required field: ingredients"),
    ("message", .str "Please provide ingredients.")])

/-- The value of `responseJson.error?.message || "Unknown error"`
(the receiver is known non-null at the use site). -/
def geminiDetail (rj : Json) : Json :=
  jsOr (optChain (jsProp rj "error") (fun e => jsProp e "message")) (.str "Unknown error")

/-- Netlify handler body for an upstream Gemini failure. -/
def netlifyGeminiBody (dtl : Json) : String :=
  Json.stringify (.obj [("error", .str "Gemini API failed"), ("details", dtl),
    ("message", .str ("Gemini API Error: " ++ jsToString dtl))])

/-- Netlify handler body for the catch-all processing error. -/
def netlifyProcessingBody (d : String) : String :=
  Json.stringify (.obj [("error", .str "Processing Error"), ("details", .str d),
    ("message", .str "Failed to process AI response.")])

/-- Vercel handler body for the configuration-error response. -/
def vercelConfigBody : String :=
  Json.stringify (.obj [("error", .str "Configuration Error: GEMINI_API_KEY is not set on the server.")])

/-- Vercel handler body for the method-not-allowed response. -/
def vercelMethodBody : String :=
  Json.stringify (.obj [("error", .str "Method Not Allowed")])

/-- Vercel handler body for the invalid-JSON-body response. -/
def vercelInvalidBody : String :=
  Json.stringify (.obj [("error", .str "Invalid JSON body")])

/-- Vercel handler body for the missing-ingredients response. -/
def vercelMissingBody : String :=
  Json.stringify (.obj [("error", .str "Missing required field: ingredients")])

/-- The value of `data.error?.message || "Unknown error."` in the Vercel
handler (note the trailing period, unlike the Netlify handler). -/
def vercelGeminiDetail (rj : Json) : Json :=
  jsOr (optChain (jsProp rj "error") (fun e => jsProp e "message")) (.str "Unknown error.")

/-- Vercel handler body for an upstream Gemini failure. -/
def vercelGeminiBody (dtl : Json) : String :=
  Json.stringify (.obj [("error", .str "Gemini API failed to process request."), ("details", dtl)])

/-- Vercel handler body for the catch-all internal error. -/
def vercelInternalBody (d : String) : String :=
  Json.stringify (.obj [("error", .str "Internal Server Error during AI processing."), ("details", d |> .str)])

/-- The part of the Netlify handler inside the outer try, after the
fetch resolved: decode the upstream body (`await apiResponse.json()`
throws into the catch on undecodable bodies), surface upstream errors
(evaluating `responseJson.error` throws when the decoded body is null,
both in the condition when ok and in the details expression when not
ok), extract the candidate text through the optional chain, throw
"No content generated" on a falsy candidate, clean the text (.replace
throws on non-strings), validate it with JSON.parse, and return it
verbatim; every throw lands in the catch producing the 500
"Processing Error" response. -/
def netlifyUpstreamResp (up : UpstreamReply) : HttpResponse :=
  match Json.parse up.body with
  | none => ⟨500, netlifyProcessingBody jsonParseErrMsg⟩
  | some rj =>
    if isNull rj = true then ⟨500, netlifyProcessingBody nullReadMsg⟩
    else if up.ok = false ∨ truthyOpt (jsProp rj "error") = true then
      ⟨(if up.status = 0 then 500 else up.status), netlifyGeminiBody (geminiDetail rj)⟩
    else
      match chainText rj with
      | none => ⟨500, netlifyProcessingBody noContentMsg⟩
      | some t =>
        if truthy t = false then ⟨500, netlifyProcessingBody noContentMsg⟩
        else
          match t with
          | .str s =>
            match Json.parse (cleanText s) with
            | none => ⟨500, netlifyProcessingBody jsonParseErrMsg⟩
            | some _ => ⟨200, cleanText s⟩
          | _ => ⟨500, netlifyProcessingBody nullReadMsg⟩

/-- The Netlify (modern) request handler, the `default` export of
generate.mts: preflight short-circuit, key check, method check, body
parse (accessing `.ingredients` on a null body throws into the same
catch as a parse failure), `lang` defaulting, missing-ingredients
check, then the outbound call whose mocked reply `up` is processed by
`netlifyUpstreamResp`. -/
def netlifyHandler (apiKey : Option String) (req : Request) (up : UpstreamReply) : Outcome :=
  if req.method = "OPTIONS" then ⟨⟨200, ""⟩, none⟩
  else if keyTruthy apiKey = false then ⟨⟨500, netlifyConfigBody⟩, none⟩
  else if req.method ≠ "POST" then ⟨⟨405, netlifyMethodBody⟩, none⟩
  else
    match Json.parse req.body with
    | none => ⟨⟨400, netlifyInvalidBody⟩, none⟩
    | some b =>
      if isNull b = true then ⟨⟨400, netlifyInvalidBody⟩, none⟩
      else
        match jsProp b "ingredients" with
        | none => ⟨⟨400, netlifyMissingBody⟩, none⟩
        | some ingv =>
          if truthy ingv = false then ⟨⟨400, netlifyMissingBody⟩, none⟩
          else
            ⟨netlifyUpstreamResp up,
              some (MODEL_NAME,
                mkPrompt (jsToString ingv) (jsToString (jsOr (jsProp b "lang") (.str "ar"))))⟩

/-- The part of the Vercel handler inside the try, after the fetch
resolved. Structure as in `netlifyUpstreamResp`, but: the upstream
status is relayed without the `|| 500` fallback, the error strings
differ, the candidate text is extracted with plain (non-optional)
accesses whose failures throw into the catch, and on success the
parsed recipes are re-serialized by `res.json`. -/
def vercelUpstreamResp (up : UpstreamReply) : HttpResponse :=
  match Json.parse up.body with
  | none => ⟨500, vercelInternalBody jsonParseErrMsg⟩
  | some rj =>
    if isNull rj = true then ⟨500, vercelInternalBody nullReadMsg⟩
    else if up.ok = false ∨ truthyOpt (jsProp rj "error") = true then
      ⟨up.status, vercelGeminiBody (vercelGeminiDetail rj)⟩
    else
      match chainText rj with
      | some (.str s) =>
        match Json.parse (cleanText s) with
        | none => ⟨500, vercelInternalBody jsonParseErrMsg⟩
        | some v => ⟨200, Json.stringify v⟩
      | some _ => ⟨500, vercelInternalBody nullReadMsg⟩
      | none => ⟨500, vercelInternalBody nullReadMsg⟩

/-- The Vercel/CommonJS request handler (`module.exports`). The
platform delivers `req.body` pre-parsed; that parse is modelled by the
same JSON.parse, with a failed parse leaving `req.body` undefined so
that `body.ingredients` throws into the catch ("Invalid JSON body"),
exactly as a null body does. -/
def vercelHandler (apiKey : Option String) (req : Request) (up : UpstreamReply) : Outcome :=
  if req.method = "OPTIONS" then ⟨⟨200, ""⟩, none⟩
  else if keyTruthy apiKey = false then ⟨⟨500, vercelConfigBody⟩, none⟩
  else if req.method ≠ "POST" then ⟨⟨405, vercelMethodBody⟩, none⟩
  else
    match Json.parse req.body with
    | none => ⟨⟨400, vercelInvalidBody⟩, none⟩
    | some b =>
      if isNull b = true then ⟨⟨400, vercelInvalidBody⟩, none⟩
      else
        match jsProp b "ingredients" with
        | none => ⟨⟨400, vercelMissingBody⟩, none⟩
        | some ingv =>
          if truthy ingv = false then ⟨⟨400, vercelMissingBody⟩, none⟩
          else
            ⟨vercelUpstreamResp up,
              some (MODEL_NAME_vercel,
                mkPrompt (jsToString ingv) (jsToString (jsOr (jsProp b "lang") (.str "ar"))))⟩

/-- A canonical valid POST request (`{"ingredients":"eggs"}`) used to
exercise the upstream stage of the pipeline. -/
def validReq : Request := ⟨"POST", "\x7b\x22ingredients\x22:\x22eggs\x22\x7d"⟩

/-- The prompt both handlers build for `validReq` (default language). -/
def promptEggs : String := mkPrompt "eggs" "ar"

/-- A neutral successful upstream reply with an empty JSON object body. -/
def upstreamOkEmpty : UpstreamReply := ⟨true, 200, "\x7b\x7d"⟩

/-- The spec's mocked quota-exhausted upstream reply:
HTTP 429 with body `{"error":{"message":"quota exceeded"}}`. -/
def upQuota : UpstreamReply :=
  ⟨false, 429, "\x7b\x22error\x22:\x7b\x22message\x22:\x22quota exceeded\x22\x7d\x7d"⟩

/-- A failed upstream reply whose body is not JSON at all. -/
def upBad502 : UpstreamReply := ⟨false, 502, "oops"⟩

/-- The decoded shape `{"candidates":[{"content":{"parts":[{"text": t}]}}]}`
of a successful generation reply carrying text `t`. -/
def candidatesReply (t : String) : Json :=
  .obj [("candidates", .arr [.obj [("content",
    .obj [("parts", .arr [.obj [("text", .str t)]])])]])]

/-- A successful upstream reply whose candidate text is "not json". -/
def upNotJson : UpstreamReply :=
  ⟨true, 200, "\x7b\x22candidates\x22:[\x7b\x22content\x22:\x7b\x22parts\x22:[\x7b\x22text\x22:\x22not json\x22\x7d]\x7d\x7d]\x7d"⟩

/-- A successful upstream reply whose candidate text is the bare JSON
number "42". -/
def upNum42 : UpstreamReply :=
  ⟨true, 200, "\x7b\x22candidates\x22:[\x7b\x22content\x22:\x7b\x22parts\x22:[\x7b\x22text\x22:\x2242\x22\x7d]\x7d\x7d]\x7d"⟩

/-- A successful upstream reply whose candidate text is the
```json-fenced array `[{"title":"X"}]`. -/
def upFenced : UpstreamReply :=
  ⟨true, 200, "\x7b\x22candidates\x22:[\x7b\x22content\x22:\x7b\x22parts\x22:[\x7b\x22text\x22:\x22```json\\n[\x7b\\\x22title\\\x22:\\\x22X\\\x22\x7d]\\n```\x22\x7d]\x7d\x7d]\x7d"⟩

/-- A successful upstream reply whose candidate text is a JSON array
containing an interior "```" run (`["a```b"]`). -/
def upInteriorFence : UpstreamReply :=
  ⟨true, 200, "\x7b\x22candidates\x22:[\x7b\x22content\x22:\x7b\x22parts\x22:[\x7b\x22text\x22:\x22[\\\x22a```b\\\x22]\x22\x7d]\x7d\x7d]\x7d"⟩

lemma netlify_validReq_eq (up : UpstreamReply) :
    netlifyHandler (some "key") validReq up =
      ⟨netlifyUpstreamResp up, some (MODEL_NAME, promptEggs)⟩ := rfl

lemma vercel_validReq_eq (up : UpstreamReply) :
    vercelHandler (some "key") validReq up =
      ⟨vercelUpstreamResp up, some (MODEL_NAME_vercel, promptEggs)⟩ := rfl

/-- C2, counterexample: with the API key absent from the environment, a
GET request (neither POST nor OPTIONS) is answered with the 500
configuration error, not with 405 — the key check precedes the method
check, so the claim's "regardless of any other condition" fails. -/
theorem C2_counterexample :
    (netlifyHandler none ⟨"GET", ""⟩ upstreamOkEmpty).resp.status = 500 ∧ (500 : Nat) ≠ 405 :=
  ⟨rfl, by decide⟩

/-- C2, amended: for every inbound request whose method is neither POST
nor OPTIONS, provided the API key is present (truthy), the Netlify
handler returns status 405 with the "Method Not Allowed" error body,
regardless of the request body and of the upstream reply. -/
theorem C2_method_not_allowed (k : Option String) (req : Request) (up : UpstreamReply)
    (hk : keyTruthy k = true) (h1 : req.method ≠ "POST") (h2 : req.method ≠ "OPTIONS") :
    (netlifyHandler k req up).resp = ⟨405, netlifyMethodBody⟩ := by
  unfold netlifyHandler
  rw [if_neg h2, if_neg (by simp [hk]), if_pos h1]

/-- Witness for C2_method_not_allowed at a concrete DELETE request. -/
theorem C2_method_not_allowed_witness :
    (netlifyHandler (some "key") ⟨"DELETE", "\x7b\x7d"⟩ upstreamOkEmpty).resp =
      ⟨405, netlifyMethodBody⟩ :=
  C2_method_not_allowed (some "key") ⟨"DELETE", "\x7b\x7d"⟩ upstreamOkEmpty rfl
    (by decide) (by decide)

/-- C3, counterexample: the body "null" parses as JSON (so the claim
prescribes the missing-field error for its absent `ingredients`), but
the handler answers with the "Invalid JSON body" response instead:
reading `.ingredients` of null throws into the same catch as a parse
failure. -/
theorem C3_counterexample :
    Json.parse "null" = some Json.null ∧
    (netlifyHandler (some "key") ⟨"POST", "null"⟩ upstreamOkEmpty).resp =
      ⟨400, netlifyInvalidBody⟩ ∧
    netlifyInvalidBody ≠ netlifyMissingBody :=
  ⟨rfl, rfl, by decide⟩

/-- C3, amended: for every POST request with the key present: a body
that fails to parse as JSON is answered 400 "Invalid JSON body"; a body
that parses to null is also answered 400 "Invalid JSON body" (the field
access itself throws); otherwise a missing or empty-string
`ingredients` field is answered 400 "Missing required field:
ingredients", a check reachable only after a successful JSON parse. -/
theorem C3_body_validation (k : Option String) (req : Request) (up : UpstreamReply)
    (hk : keyTruthy k = true) (hm : req.method = "POST") :
    ((Json.parse req.body = none ∨ Json.parse req.body = some Json.null) →
      (netlifyHandler k req up).resp = ⟨400, netlifyInvalidBody⟩) ∧
    (∀ b, Json.parse req.body = some b → isNull b = false →
      (jsProp b "ingredients" = none ∨ jsProp b "ingredients" = some (Json.str "")) →
      (netlifyHandler k req up).resp = ⟨400, netlifyMissingBody⟩) := by
  constructor
  · intro h
    unfold netlifyHandler
    rw [if_neg (by simp [hm]), if_neg (by simp [hk]), if_neg (by simp [hm])]
    rcases h with h | h <;> (rw [h]; try rfl)
  · intro b hb hnn hing
    unfold netlifyHandler
    rw [if_neg (by simp [hm]), if_neg (by simp [hk]), if_neg (by simp [hm]), hb]
    simp only [hnn, Bool.false_eq_true, if_false]
    rcases hing with h | h <;> (rw [h]; try rfl)

/-- Witness for C3_body_validation: a POST with body `{}` (ingredients
missing) is answered with the missing-field response. -/
theorem C3_body_validation_witness :
    (netlifyHandler (some "key") ⟨"POST", "\x7b\x7d"⟩ upstreamOkEmpty).resp =
      ⟨400, netlifyMissingBody⟩ :=
  (C3_body_validation (some "key") ⟨"POST", "\x7b\x7d"⟩ upstreamOkEmpty rfl rfl).2
    (Json.obj []) rfl rfl (Or.inl rfl)

/-- C4: for every non-OPTIONS request, when the API key is absent (or
empty, equally falsy) the Netlify handler produces exactly the 500
"Configuration Error" outcome with no outbound call; the outcome is a
constant, independent of the request body and of the upstream reply, so
the body is never read nor parsed. -/
theorem C4_config_error (k : Option String) (req : Request) (up : UpstreamReply)
    (hk : keyTruthy k = false) (h2 : req.method ≠ "OPTIONS") :
    netlifyHandler k req up = ⟨⟨500, netlifyConfigBody⟩, none⟩ := by
  unfold netlifyHandler
  rw [if_neg h2, if_pos hk]

/-- Witness for C4_config_error at a concrete POST request with the key
unset. -/
theorem C4_config_error_witness :
    netlifyHandler none validReq upstreamOkEmpty = ⟨⟨500, netlifyConfigBody⟩, none⟩ :=
  C4_config_error none validReq upstreamOkEmpty rfl (by decide)

/-- C8: whenever a parsed POST body has a truthy `ingredients` field and
no `lang` field, the outbound call is made with the prompt built from
the language code "ar". -/
theorem C8_default_lang (k : Option String) (req : Request) (up : UpstreamReply) (b ingv : Json)
    (hk : keyTruthy k = true) (hm : req.method = "POST")
    (hb : Json.parse req.body = some b) (hnn : isNull b = false)
    (hing : jsProp b "ingredients" = some ingv) (ht : truthy ingv = true)
    (hlang : jsProp b "lang" = none) :
    (netlifyHandler k req up).upstreamCall =
      some (MODEL_NAME, mkPrompt (jsToString ingv) "ar") := by
  unfold netlifyHandler
  rw [if_neg (by simp [hm]), if_neg (by simp [hk]), if_neg (by simp [hm]), hb]
  simp only [hnn, Bool.false_eq_true, if_false, hing, ht, Bool.true_eq_false, hlang]
  rfl

/-- Witness for C8_default_lang at `validReq` (no `lang` field). -/
theorem C8_default_lang_witness :
    (netlifyHandler (some "key") validReq upstreamOkEmpty).upstreamCall =
      some (MODEL_NAME, mkPrompt "eggs" "ar") :=
  C8_default_lang (some "key") validReq upstreamOkEmpty
    (Json.obj [("ingredients", Json.str "eggs")]) (Json.str "eggs")
    rfl rfl rfl rfl rfl rfl rfl

/-- C9: the handler is deterministic — two invocations with equal API
key, equal request and equal mocked upstream reply produce equal
outcomes (the embedding is a pure function of exactly these three
inputs, which is the content of the source's statelessness). -/
theorem C9_deterministic (k1 k2 : Option String) (r1 r2 : Request) (u1 u2 : UpstreamReply)
    (hk : k1 = k2) (hr : r1 = r2) (hu : u1 = u2) :
    netlifyHandler k1 r1 u1 = netlifyHandler k2 r2 u2 := by
  rw [hk, hr, hu]

/-- Witness for C9_deterministic at concrete inputs. -/
theorem C9_deterministic_witness :
    netlifyHandler (some "key") validReq upQuota = netlifyHandler (some "key") validReq upQuota :=
  C9_deterministic (some "key") (some "key") validReq validReq upQuota upQuota rfl rfl rfl

/-- C6, counterexample: a failed upstream reply (HTTP 502) whose body is
not JSON is answered with the 500 "Processing Error" response, not with
the claimed 502 "Gemini API failed": `await apiResponse.json()` throws
before the ok-check is reached. -/
theorem C6_counterexample :
    (netlifyHandler (some "key") validReq upBad502).resp.status = 500 ∧ (500 : Nat) ≠ 502 ∧
    (netlifyHandler (some "key") validReq upBad502).resp.body =
      netlifyProcessingBody jsonParseErrMsg :=
  ⟨rfl, by decide, rfl⟩

/-- C6, amended: for every upstream reply whose body decodes as JSON to
a non-null value, if the HTTP call did not succeed or the decoded body
carries a truthy error field, the handler returns the "Gemini API
failed" error with status equal to the upstream status (500 when the
upstream status is 0) and details equal to the upstream error message
when that is present and truthy, "Unknown error" otherwise. -/
theorem C6_gemini_error (u : UpstreamReply) (rj : Json)
    (hp : Json.parse u.body = some rj) (hnn : isNull rj = false)
    (herr : u.ok = false ∨ truthyOpt (jsProp rj "error") = true) :
    (netlifyHandler (some "key") validReq u).resp =
      ⟨(if u.status = 0 then 500 else u.status),
        netlifyGeminiBody
          (jsOr (optChain (jsProp rj "error") (fun e => jsProp e "message"))
            (Json.str "Unknown error"))⟩ := by
  rw [netlify_validReq_eq]
  show netlifyUpstreamResp u = _
  unfold netlifyUpstreamResp
  rw [hp]
  simp only [hnn, Bool.false_eq_true, if_false, if_pos herr]
  rfl

/-- Witness for C6_gemini_error: the spec's mocked 429 quota reply is
relayed as 429 "Gemini API failed" with details "quota exceeded". -/
theorem C6_gemini_error_witness :
    (netlifyHandler (some "key") validReq upQuota).resp =
      ⟨429, netlifyGeminiBody (Json.str "quota exceeded")⟩ :=
  (C6_gemini_error upQuota
    (Json.obj [("error", Json.obj [("message", Json.str "quota exceeded")])])
    rfl rfl (Or.inl rfl)).trans (by decide)

/-- C7: for every upstream reply that passes the upstream-error check
(ok, decodable non-null body, no truthy error field), if the candidate
text is absent or the cleaned text fails to parse as JSON, the handler
returns status 500 with a "Processing Error" body — never a 200. -/
theorem C7_processing_error (u : UpstreamReply) (rj : Json)
    (hp : Json.parse u.body = some rj) (hnn : isNull rj = false)
    (hok : u.ok = true) (herr : truthyOpt (jsProp rj "error") = false)
    (hbad : chainText rj = none ∨
      ∃ s, chainText rj = some (Json.str s) ∧ Json.parse (cleanText s) = none) :
    (netlifyHandler (some "key") validReq u).resp.status = 500 ∧
    (∃ d, (netlifyHandler (some "key") validReq u).resp.body = netlifyProcessingBody d) ∧
    (netlifyHandler (some "key") validReq u).resp.status ≠ 200 := by
  have hcond : ¬ (u.ok = false ∨ truthyOpt (jsProp rj "error") = true) := by
    simp [hok, herr]
  suffices h : ∃ d, netlifyUpstreamResp u = ⟨500, netlifyProcessingBody d⟩ by
    obtain ⟨d, hd⟩ := h
    rw [netlify_validReq_eq]
    exact ⟨by simp [hd], ⟨d, by simp [hd]⟩, by simp [hd]⟩
  unfold netlifyUpstreamResp
  rw [hp]
  simp only [hnn, Bool.false_eq_true, if_false, if_neg hcond]
  rcases hbad with h | ⟨s, hc, hps⟩
  · rw [h]; exact ⟨noContentMsg, rfl⟩
  · rw [hc]
    by_cases hs : s = ""
    · subst hs; exact ⟨noContentMsg, rfl⟩
    · have ht : truthy (Json.str s) = true := by simp [truthy, hs]
      simp only [ht, Bool.true_eq_false, if_false]
      rw [hps]
      exact ⟨jsonParseErrMsg, rfl⟩

/-- Witness for C7_processing_error: the spec's mocked success reply
with text "not json" yields a 500 Processing Error, not a 200. -/
theorem C7_processing_error_witness :
    (netlifyHandler (some "key") validReq upNotJson).resp.status = 500 ∧
    (∃ d, (netlifyHandler (some "key") validReq upNotJson).resp.body =
      netlifyProcessingBody d) ∧
    (netlifyHandler (some "key") validReq upNotJson).resp.status ≠ 200 :=
  C7_processing_error upNotJson (candidatesReply "not json") rfl rfl rfl rfl
    (Or.inr ⟨"not json", rfl, rfl⟩)

/-- C10: the success path checks nothing about the shape of the model
output beyond JSON well-formedness — whenever the extracted text is a
string whose cleaned form parses as any JSON value whatsoever, the
handler returns the cleaned text verbatim with status 200. -/
theorem C10_success_any_json (u : UpstreamReply) (rj : Json) (s : String) (v : Json)
    (hp : Json.parse u.body = some rj) (hnn : isNull rj = false) (hok : u.ok = true)
    (herr : truthyOpt (jsProp rj "error") = false)
    (hchain : chainText rj = some (Json.str s))
    (hps : Json.parse (cleanText s) = some v) :
    (netlifyHandler (some "key") validReq u).resp = ⟨200, cleanText s⟩ := by
  have hcond : ¬ (u.ok = false ∨ truthyOpt (jsProp rj "error") = true) := by
    simp [hok, herr]
  have hs : s ≠ "" := by
    intro e
    subst e
    rw [show cleanText "" = "" from rfl, show Json.parse "" = none from rfl] at hps
    exact Option.noConfusion hps
  have ht : truthy (Json.str s) = true := by simp [truthy, hs]
  rw [netlify_validReq_eq]
  show netlifyUpstreamResp u = _
  unfold netlifyUpstreamResp
  rw [hp]
  simp only [hnn, Bool.false_eq_true, if_false, if_neg hcond, hchain, ht, Bool.true_eq_false]
  rw [hps]

/-- Witness for C10_success_any_json: a success reply whose text is the
bare JSON number "42" (not an array of recipes) is returned verbatim
with status 200. -/
theorem C10_success_any_json_witness :
    (netlifyHandler (some "key") validReq upNum42).resp = ⟨200, "42"⟩ :=
  (C10_success_any_json upNum42 (candidatesReply "42") "42" (Json.num 42 0)
    rfl rfl rfl rfl rfl rfl).trans (by decide)

lemma toList_append (s t : String) : (s ++ t).toList = s.toList ++ t.toList :=
  String.data_append s t

lemma stripAux_cons_ne (c : Char) (l : List Char) (h : c ≠ backtick) :
    stripAux 0 (c :: l) = c :: stripAux 0 l := by
  have h1 : (backtick == c) = false := by
    simp only [beq_eq_false_iff_ne, ne_eq]
    exact fun e => h e.symm
  simp [stripAux, fenceJsonTok, fenceTok, startsWithChars, h1]

lemma stripAux_append_of_no_backtick (l r : List Char) (h : ∀ c ∈ l, c ≠ backtick) :
    stripAux 0 (l ++ r) = l ++ stripAux 0 r := by
  induction l with
  | nil => rfl
  | cons a t ih =>
    have ha : a ≠ backtick := h a (List.mem_cons_self a t)
    have ht : ∀ c ∈ t, c ≠ backtick := fun c hc => h c (List.mem_cons_of_mem a hc)
    rw [List.cons_append, stripAux_cons_ne a (t ++ r) ha, ih ht, List.cons_append]

lemma stripAux_fenceJson_nl (l : List Char) :
    stripAux 0 ("```json\n".toList ++ l) = '\n' :: stripAux 0 l := rfl

lemma stripAux_nl_fence : stripAux 0 ("\n```".toList) = ['\n'] := rfl

lemma trimChars_cons_ws (c : Char) (l : List Char) (h : isJsWs c = true) :
    trimChars (c :: l) = trimChars l := by
  unfold trimChars
  rw [List.dropWhile_cons_of_pos h]

lemma dropTrailWs_append_ws (l : List Char) (c : Char) (h : isJsWs c = true) :
    dropTrailWs (l ++ [c]) = dropTrailWs l := by
  unfold dropTrailWs
  have h2 : (l ++ [c]).reverse = c :: l.reverse := by simp
  rw [h2, List.dropWhile_cons_of_pos h]

lemma trimChars_append_ws (l : List Char) (c : Char) (h : isJsWs c = true) :
    trimChars (l ++ [c]) = trimChars l := by
  unfold trimChars
  rw [List.dropWhile_append]
  by_cases he : (List.dropWhile isJsWs l).isEmpty
  · rw [if_pos he]
    rw [List.isEmpty_iff] at he
    rw [he]
    rw [show List.dropWhile isJsWs [c] = [] from by
      rw [List.dropWhile_cons_of_pos h, List.dropWhile_nil]]
  · rw [if_neg he, dropTrailWs_append_ws _ _ h]

/-- The cleaning step on a ```json-fenced text with no backticks inside
the fenced payload: the fences go, the payload is trimmed. -/
lemma cleanText_fenced (inner : String) (hbt : ∀ c ∈ inner.toList, c ≠ backtick) :
    cleanText ("```json\n" ++ inner ++ "\n```") = String.mk (trimChars inner.toList) := by
  unfold cleanText stripFences
  have hdata : ("```json\n" ++ inner ++ "\n```").toList =
      "```json\n".toList ++ (inner.toList ++ "\n```".toList) := by
    rw [toList_append, toList_append, List.append_assoc]
  rw [hdata, stripAux_fenceJson_nl, stripAux_append_of_no_backtick _ _ hbt, stripAux_nl_fence,
    trimChars_cons_ws _ _ (by decide), trimChars_append_ws _ _ (by decide)]

/-- C5, counterexample: the replace is global, not limited to
surrounding fences — a candidate text `["a```b"]` with an interior
"```" run (and no surrounding fences at all) is answered 200 with the
interior backticks deleted, so the interior text is not left
unchanged. -/
theorem C5_counterexample :
    (netlifyHandler (some "key") validReq upInteriorFence).resp = ⟨200, "[\x22ab\x22]"⟩ ∧
    ("[\x22ab\x22]" : String) ≠ "[\x22a```b\x22]" :=
  ⟨rfl, by decide⟩

/-- C5, amended: the cleaning step removes every occurrence of the
tokens "```json" and "```" throughout the text (left-to-right, the
longer token preferred) and trims surrounding whitespace; in
particular, for an upstream reply whose text is a ```json-fenced JSON
payload with no further backticks, the handler returns the bare
trimmed payload with status 200. -/
theorem C5_fence_strip (u : UpstreamReply) (inner : String) (v : Json)
    (hp : Json.parse u.body = some (candidatesReply ("```json\n" ++ inner ++ "\n```")))
    (hok : u.ok = true)
    (hbt : ∀ c ∈ inner.toList, c ≠ backtick)
    (hv : Json.parse (String.mk (trimChars inner.toList)) = some v) :
    (netlifyHandler (some "key") validReq u).resp =
      ⟨200, String.mk (trimChars inner.toList)⟩ := by
  have hclean := cleanText_fenced inner hbt
  have hlen : ("```json\n" ++ inner ++ "\n```").length ≠ 0 := by
    simp only [String.length_append]
    rw [show ("```json\n").length = 8 from rfl, show ("\n```").length = 4 from rfl]
    omega
  have ht : truthy (Json.str ("```json\n" ++ inner ++ "\n```")) = true := by
    simp only [truthy, Bool.not_eq_true', beq_eq_false_iff_ne, ne_eq]
    intro e
    exact hlen (by rw [e]; rfl)
  have hcond : ¬ (u.ok = false ∨
      truthyOpt (jsProp (candidatesReply ("```json\n" ++ inner ++ "\n```")) "error") = true) := by
    simp [hok, candidatesReply, jsProp, lookupField, truthyOpt]
  have hchain : chainText (candidatesReply ("```json\n" ++ inner ++ "\n```")) =
      some (Json.str ("```json\n" ++ inner ++ "\n```")) := rfl
  rw [netlify_validReq_eq]
  show netlifyUpstreamResp u = _
  unfold netlifyUpstreamResp
  rw [hp]
  simp only [show isNull (candidatesReply ("```json\n" ++ inner ++ "\n```")) = false from rfl,
    Bool.false_eq_true, if_false, if_neg hcond, hchain, ht, Bool.true_eq_false]
  rw [hclean, hv]

/-- Witness for C5_fence_strip: the spec's fenced-array example — text
"```json\n[{"title":"X"}]\n```" comes back as the bare array with
status 200. -/
theorem C5_fence_strip_witness :
    (netlifyHandler (some "key") validReq upFenced).resp =
      ⟨200, "[\x7b\x22title\x22:\x22X\x22\x7d]"⟩ :=
  (C5_fence_strip upFenced "[\x7b\x22title\x22:\x22X\x22\x7d]"
    (Json.arr [Json.obj [("title", Json.str "X")]]) rfl rfl (by decide) rfl).trans (by decide)

/-- The two upstream-processing stages agree on the response status for
every mocked upstream reply with a nonzero status code (the Netlify
variant maps status 0 to 500 via `|| 500`, the Vercel variant relays it
as-is). -/
lemma upstreamResp_status_eq (u : UpstreamReply) (h : u.status ≠ 0) :
    (netlifyUpstreamResp u).status = (vercelUpstreamResp u).status := by
  unfold netlifyUpstreamResp vercelUpstreamResp
  rcases hp : Json.parse u.body with _ | rj
  · rfl
  · dsimp only
    by_cases hn : isNull rj = true
    · rw [if_pos hn, if_pos hn]
    · rw [if_neg hn, if_neg hn]
      by_cases he : u.ok = false ∨ truthyOpt (jsProp rj "error") = true
      · rw [if_pos he, if_pos he]
        dsimp only
        rw [if_neg h]
      · rw [if_neg he, if_neg he]
        rcases hc : chainText rj with _ | t
        · rfl
        · cases t with
          | null => rfl
          | bool b => cases b <;> rfl
          | num m sc => dsimp only; split <;> rfl
          | str s =>
            dsimp only
            by_cases hs : truthy (Json.str s) = false
            · have hs2 : s = "" := by
                simpa [truthy] using hs
              subst hs2
              rfl
            · rw [if_neg hs]
              rcases hpc : Json.parse (cleanText s) with _ | v <;> rfl
          | arr items => rfl
          | obj fields => rfl

/-- C1, counterexample: at the spec's mocked 429 quota reply the two
handlers produce different response bodies (different error category
strings and details), so they are not behaviourally equivalent as the
claim states. -/
theorem C1_counterexample :
    (netlifyHandler (some "key") validReq upQuota).resp.body ≠
      (vercelHandler (some "key") validReq upQuota).resp.body := by decide

/-- C1, amended: the two handlers agree on the outbound response status
for every inbound request and every mocked upstream reply with a
nonzero upstream status code; their response bodies however differ
beyond the model version string (error categories, message fields, and
success-body re-serialization). -/
theorem C1_status_equiv (k : Option String) (r : Request) (u : UpstreamReply)
    (h : u.status ≠ 0) :
    (netlifyHandler k r u).resp.status = (vercelHandler k r u).resp.status := by
  unfold netlifyHandler vercelHandler
  by_cases h1 : r.method = "OPTIONS"
  · rw [if_pos h1, if_pos h1]
  · rw [if_neg h1, if_neg h1]
    by_cases h2 : keyTruthy k = false
    · rw [if_pos h2, if_pos h2]
    · rw [if_neg h2, if_neg h2]
      by_cases h3 : r.method ≠ "POST"
      · rw [if_pos h3, if_pos h3]
      · rw [if_neg h3, if_neg h3]
        rcases hp : Json.parse r.body with _ | b
        · rfl
        · dsimp only
          by_cases hn : isNull b = true
          · rw [if_pos hn, if_pos hn]
          · rw [if_neg hn, if_neg hn]
            rcases hi : jsProp b "ingredients" with _ | ingv
            · rfl
            · dsimp only
              by_cases ht : truthy ingv = false
              · rw [if_pos ht, if_pos ht]
              · rw [if_neg ht, if_neg ht]
                exact upstreamResp_status_eq u h

/-- Witness for C1_status_equiv at the concrete quota reply (where the
bodies differ, the statuses still agree: both 429). -/
theorem C1_status_equiv_witness :
    (netlifyHandler (some "key") validReq upQuota).resp.status =
      (vercelHandler (some "key") validReq upQuota).resp.status :=
  C1_status_equiv (some "key") validReq upQuota (by decide)
